import Mathlib

/-!
Shallow embedding of drivers/media/v4l2-core/videobuf2-dma-contig.c
(the DMA-contiguous memory backend of the videobuf2 framework) and
verification of its natural-language specification.

Modelling conventions:
* Machine words (`dma_addr_t`, `unsigned long`) are `Nat`; where overflow
  can matter the arithmetic is taken modulo `W = 2 ^ 64`.
* The scatterlist `struct sg_table` is a list of DMA-view segments
  (device address, length) together with the `nents` / `orig_nents`
  counters of the C structure; `nents` is the number of entries that are
  valid for DMA, exactly as consumed by `for_each_sg(.., sgt->nents, ..)`.
* Kernel services external to this file (`kzalloc`, `dma_alloc_coherent`,
  `vb2_create_framevec`, `frame_vector_to_pages`,
  `sg_alloc_table_from_pages`, `dma_map_sg`, `dma_buf_map_attachment`,
  `dma_buf_attach`, `dma_buf_export`, `dma_get_cache_alignment`,
  `vb2_dc_pfn_to_dma`) are oracles packaged in environment structures:
  each call site reads the oracle's outcome, mirroring the branch
  structure of the C code exactly.
* Resource acquisition and release are recorded as event traces so that
  rollback order and "no resource allocated" claims are checkable.
* Error returns use `Except` with an error-code type mirroring the errno
  values the source uses: EINVAL, ENOMEM, EIO, EFAULT.  The spec's error
  names correspond to conditions: InvalidArgument covers the EINVAL
  checks, OutOfMemory is ENOMEM, IOError is EIO, ContiguityViolation is
  the EFAULT of a too-short contiguous run.
-/

/-- Word modulus for 64-bit machine integers (`dma_addr_t`, `unsigned long`). -/
def W : Nat := 2 ^ 64

/-- Direction of a DMA transfer, `enum dma_data_direction`. -/
inductive DmaDir where
  | bidirectional
  | to_device
  | from_device
  | dma_none
deriving DecidableEq, Repr

/-- Errno values returned by the source: EINVAL, ENOMEM, EIO, EFAULT. -/
inductive ErrCode where
  | einval
  | enomem
  | eio
  | efault
deriving DecidableEq, Repr

/-- One scatterlist entry in its DMA view: `sg_dma_address` and `sg_dma_len`. -/
structure Seg where
  dma_address : Nat
  dma_len : Nat
deriving DecidableEq, Repr

/-- Model of `struct sg_table`: the scatterlist (DMA view) plus the two
entry counters.  `nents` is the number of DMA-mapped entries, `orig_nents`
the number of allocated entries. -/
structure SgTable where
  sgl : List Seg
  nents : Nat
  orig_nents : Nat
deriving DecidableEq, Repr

/-- Loop body of `vb2_dc_get_contiguous_size`: walk the segments, stop at
the first whose address differs from the running `expected` address,
otherwise advance `expected` to the segment's end and accumulate its
length.  Address arithmetic is `dma_addr_t` arithmetic, modulo `W`. -/
def contigGo : List Seg → Nat → Nat → Nat
  | [], _, size => size
  | s :: rest, expected, size =>
    if s.dma_address ≠ expected then size
    else contigGo rest ((s.dma_address + s.dma_len) % W) (size + s.dma_len)

/-- Embedding of `vb2_dc_get_contiguous_size` (lines 50-64): the expected
address starts at `sg_dma_address(sgt->sgl)` (the first entry) and the
loop visits the first `nents` entries. -/
def vb2_dc_get_contiguous_size (sgt : SgTable) : Nat :=
  match sgt.sgl with
  | [] => 0
  | s0 :: _ => contigGo (sgt.sgl.take sgt.nents) s0.dma_address 0

/-- Model of `struct frame_vector`: the page frame numbers of the pinned
frames (`frame_vector_pfns`); `frame_vector_count` is their number. -/
structure FrameVector where
  pfns : List Nat
deriving DecidableEq, Repr

/-- Model of `struct vb2_dc_conf`: the per-device allocation context. -/
structure Vb2DcConf where
  dev : Nat
deriving DecidableEq, Repr

/-- Model of `struct vb2_dc_buf`.  Optional fields are NULL-initialised by
`kzalloc` in the C code; `dma_addr = 0` is the unmapped device address.
The reference counter `refcount` is the `atomic_t`, modelled on `Int` so
that decrement is exact. -/
structure Buf where
  dev : Nat
  vaddr : Option Nat
  size : Nat
  dma_addr : Nat
  dma_dir : DmaDir
  dma_sgt : Option SgTable
  vec : Option FrameVector
  refcount : Int
  sgt_base : Option SgTable
  db_attach : Option Nat
deriving DecidableEq, Repr

/-- Oracle outcomes of the kernel services used by `vb2_dc_alloc`. -/
structure AllocEnv where
  kzalloc_ok : Bool
  dma_alloc_coherent : Option (Nat × Nat)
deriving DecidableEq, Repr

/-- Embedding of `vb2_dc_alloc` (lines 141-172): allocate the descriptor,
request coherent memory, take a device reference, record size and
direction, set up the mmap handler and increment the (zeroed) refcount.
Note the function performs no validation of `size`. -/
def vb2_dc_alloc (env : AllocEnv) (conf : Vb2DcConf) (size : Nat) (dma_dir : DmaDir) :
    Except ErrCode Buf :=
  if !env.kzalloc_ok then Except.error ErrCode.enomem
  else
    match env.dma_alloc_coherent with
    | none => Except.error ErrCode.enomem
    | some (va, da) =>
      Except.ok
        { dev := conf.dev, vaddr := some va, size := size, dma_addr := da,
          dma_dir := dma_dir, dma_sgt := none, vec := none, refcount := 1,
          sgt_base := none, db_attach := none }

/-- Events recording resource acquisitions (on success) and releases
performed by `vb2_dc_get_userptr`, in program order. -/
inductive Event where
  | kzalloc_buf
  | create_framevec
  | kzalloc_sgt
  | sg_alloc_table
  | dma_map_sg
  | dma_unmap_sg
  | sg_free_table
  | kfree_sgt
  | destroy_framevec
  | kfree_buf
deriving DecidableEq, Repr

/-- Contiguity test of the fallback branch of `vb2_dc_get_userptr`
(lines 599-601): the loop fails as soon as `nums[i-1] + 1 != nums[i]`, so
it passes exactly when each frame number is the successor of the previous
one, in `unsigned long` arithmetic. -/
def pfnChain : List Nat → Bool
  | [] => true
  | [_] => true
  | a :: b :: rest => ((a + 1) % W == b) && pfnChain (b :: rest)

/-- Oracle outcomes of the kernel services used by `vb2_dc_get_userptr`:
the cache alignment, the two `kzalloc` calls, frame-vector creation and
page conversion, segment-table setup, the DMA-mapped scatterlist produced
by `dma_map_sg_attrs` (empty list = `nents <= 0`), and the
platform-dependent pfn-to-device-address translation. -/
structure UserptrEnv where
  dma_align : Nat
  kzalloc_buf_ok : Bool
  create_framevec : Except ErrCode FrameVector
  frame_vector_to_pages : Except ErrCode Unit
  kzalloc_sgt_ok : Bool
  sg_alloc_table_from_pages : Except ErrCode Unit
  dma_map_sg : List Seg
  orig_nents : Nat
  pfn_to_dma : Nat → Nat

/-- The segment table as it stands after `dma_map_sg_attrs` inside
`vb2_dc_get_userptr`: the DMA view delivered by the mapping oracle, with
`nents` set to the number of mapped entries. -/
def userptrSgt (env : UserptrEnv) : SgTable :=
  { sgl := env.dma_map_sg, nents := env.dma_map_sg.length,
    orig_nents := env.orig_nents }

/-- Embedding of `vb2_dc_get_userptr` (lines 547-664).  Branch for branch:
alignment check on `vaddr | size`, zero-size check, descriptor
allocation, frame-vector creation, page conversion with the
physical-contiguity fallback, segment-table allocation and setup, DMA
mapping, and the contiguous-size validation, with the `goto fail_*`
release ladder reproduced in the event trace. -/
def vb2_dc_get_userptr (env : UserptrEnv) (conf : Vb2DcConf) (vaddr size : Nat)
    (dma_dir : DmaDir) : Except ErrCode Buf × List Event :=
  if (vaddr ||| size) &&& (env.dma_align - 1) ≠ 0 then
    (Except.error ErrCode.einval, [])
  else if size = 0 then
    (Except.error ErrCode.einval, [])
  else if !env.kzalloc_buf_ok then
    (Except.error ErrCode.enomem, [])
  else
    match env.create_framevec with
    | Except.error e => (Except.error e, [Event.kzalloc_buf, Event.kfree_buf])
    | Except.ok vec =>
      match env.frame_vector_to_pages with
      | Except.error e =>
        if pfnChain vec.pfns then
          (Except.ok
            { dev := conf.dev, vaddr := none, size := size,
              dma_addr := env.pfn_to_dma (vec.pfns.headD 0),
              dma_dir := dma_dir, dma_sgt := none, vec := some vec,
              refcount := 0, sgt_base := none, db_attach := none },
           [Event.kzalloc_buf, Event.create_framevec])
        else
          (Except.error e,
           [Event.kzalloc_buf, Event.create_framevec, Event.destroy_framevec,
            Event.kfree_buf])
      | Except.ok _ =>
        if !env.kzalloc_sgt_ok then
          (Except.error ErrCode.enomem,
           [Event.kzalloc_buf, Event.create_framevec, Event.destroy_framevec,
            Event.kfree_buf])
        else
          match env.sg_alloc_table_from_pages with
          | Except.error e =>
            (Except.error e,
             [Event.kzalloc_buf, Event.create_framevec, Event.kzalloc_sgt,
              Event.kfree_sgt, Event.destroy_framevec, Event.kfree_buf])
          | Except.ok _ =>
            if env.dma_map_sg.isEmpty then
              (Except.error ErrCode.eio,
               [Event.kzalloc_buf, Event.create_framevec, Event.kzalloc_sgt,
                Event.sg_alloc_table, Event.sg_free_table, Event.kfree_sgt,
                Event.destroy_framevec, Event.kfree_buf])
            else if vb2_dc_get_contiguous_size (userptrSgt env) < size then
              (Except.error ErrCode.efault,
               [Event.kzalloc_buf, Event.create_framevec, Event.kzalloc_sgt,
                Event.sg_alloc_table, Event.dma_map_sg, Event.dma_unmap_sg,
                Event.sg_free_table, Event.kfree_sgt, Event.destroy_framevec,
                Event.kfree_buf])
            else
              (Except.ok
                { dev := conf.dev, vaddr := none, size := size,
                  dma_addr := ((userptrSgt env).sgl.headD ⟨0, 0⟩).dma_address,
                  dma_dir := dma_dir, dma_sgt := some (userptrSgt env),
                  vec := some vec, refcount := 0, sgt_base := none,
                  db_attach := none },
               [Event.kzalloc_buf, Event.create_framevec, Event.kzalloc_sgt,
                Event.sg_alloc_table, Event.dma_map_sg])

/-- Modelled from the claim C3 wording (not from the source): the
three-way outcome enumeration asserted for every aligned, nonzero-size
pin_from_user call.  (1) page resolution fails, the frame numbers
strictly increase by one, and the returned buffer has a single
synthesized device address and no segment table; (2) pages resolve and
the returned buffer carries the mapped segment table whose contiguous run
covers `size`; (3) pages resolve, the contiguous run is shorter than
`size`, and the call fails with ContiguityViolation (EFAULT) after
rolling back in reverse acquisition order. -/
def c3ClaimedOutcome (env : UserptrEnv) (conf : Vb2DcConf) (vaddr size : Nat)
    (dma_dir : DmaDir) : Prop :=
  (∃ e vec, env.frame_vector_to_pages = Except.error e ∧
     env.create_framevec = Except.ok vec ∧ pfnChain vec.pfns = true ∧
     ∃ b, (vb2_dc_get_userptr env conf vaddr size dma_dir).1 = Except.ok b ∧
       b.dma_sgt = none ∧ b.dma_addr = env.pfn_to_dma (vec.pfns.headD 0)) ∨
  (env.frame_vector_to_pages = Except.ok () ∧
     size ≤ vb2_dc_get_contiguous_size (userptrSgt env) ∧
     ∃ b, (vb2_dc_get_userptr env conf vaddr size dma_dir).1 = Except.ok b ∧
       b.dma_sgt = some (userptrSgt env)) ∨
  (env.frame_vector_to_pages = Except.ok () ∧
     vb2_dc_get_contiguous_size (userptrSgt env) < size ∧
     vb2_dc_get_userptr env conf vaddr size dma_dir =
       (Except.error ErrCode.efault,
        [Event.kzalloc_buf, Event.create_framevec, Event.kzalloc_sgt,
         Event.sg_alloc_table, Event.dma_map_sg, Event.dma_unmap_sg,
         Event.sg_free_table, Event.kfree_sgt, Event.destroy_framevec,
         Event.kfree_buf]))

/-- Events of the DMABUF import path `vb2_dc_map_dmabuf`. -/
inductive DmabufEvt where
  | warn_not_attached
  | warn_already_pinned
  | map_attachment
  | unmap_attachment
deriving DecidableEq, Repr

/-- Oracle for `dma_buf_map_attachment`: the foreign exporter either
produces a segment table or fails. -/
structure MapDmabufEnv where
  dma_buf_map_attachment : Except Unit SgTable

/-- Embedding of `vb2_dc_map_dmabuf` (lines 671-708): refuse a
non-attached buffer with EINVAL; on an already-pinned buffer warn and
return 0 leaving the buffer untouched; otherwise request the foreign
scatterlist, validate its contiguous size against `buf->size` (unmapping
again and failing with EFAULT when too small), and record device address
and segment table. -/
def vb2_dc_map_dmabuf (env : MapDmabufEnv) (buf : Buf) :
    Buf × Except ErrCode Unit × List DmabufEvt :=
  if buf.db_attach.isNone then
    (buf, Except.error ErrCode.einval, [DmabufEvt.warn_not_attached])
  else if buf.dma_sgt.isSome then
    (buf, Except.ok (), [DmabufEvt.warn_already_pinned])
  else
    match env.dma_buf_map_attachment with
    | Except.error _ => (buf, Except.error ErrCode.einval, [])
    | Except.ok sgt =>
      if vb2_dc_get_contiguous_size sgt < buf.size then
        (buf, Except.error ErrCode.efault,
         [DmabufEvt.map_attachment, DmabufEvt.unmap_attachment])
      else
        ({ buf with
             dma_addr := (match sgt.sgl with
               | [] => 0
               | s :: _ => s.dma_address),
             dma_sgt := some sgt, vaddr := none },
         Except.ok (), [DmabufEvt.map_attachment])

/-- Oracle for the kernel services used by `vb2_dc_attach_dmabuf`. -/
structure AttachEnv where
  kzalloc_ok : Bool
  dma_buf_attach : Except ErrCode Nat

/-- Model of the foreign shared buffer (`struct dma_buf`): its size. -/
structure DmaBufHandle where
  size : Nat
deriving DecidableEq, Repr

/-- Embedding of `vb2_dc_attach_dmabuf` (lines 754-782): reject an
undersized dmabuf with EFAULT, allocate the (zeroed) descriptor, attach
to the dmabuf, and record direction, size, and attachment.  The returned
buffer is unmapped: `dma_addr` and `dma_sgt` keep their zero values. -/
def vb2_dc_attach_dmabuf (env : AttachEnv) (conf : Vb2DcConf) (dbuf : DmaBufHandle)
    (size : Nat) (dma_dir : DmaDir) : Except ErrCode Buf :=
  if dbuf.size < size then Except.error ErrCode.efault
  else if !env.kzalloc_ok then Except.error ErrCode.enomem
  else
    match env.dma_buf_attach with
    | Except.error e => Except.error e
    | Except.ok dba =>
      Except.ok
        { dev := conf.dev, vaddr := none, size := size, dma_addr := 0,
          dma_dir := dma_dir, dma_sgt := none, vec := none, refcount := 0,
          sgt_base := none, db_attach := some dba }

/-- Model of `struct vb2_dc_attachment` on the exporter side: the cached
scatterlist copy and the direction it is currently mapped for
(`DMA_NONE` when not device-mapped). -/
structure DcAttachment where
  sgt : SgTable
  dma_dir : DmaDir
deriving DecidableEq, Repr

/-- Events of the exporter-side map callback: device-address translation
requests and releases, tagged with their direction. -/
inductive OpsMapEvt where
  | dma_unmap_sg (dir : DmaDir)
  | dma_map_sg (dir : DmaDir)
deriving DecidableEq, Repr

/-- Oracle for the exporter-side `dma_map_sg`: the DMA view produced when
mapping the cached scatterlist for a direction (empty = zero `nents`). -/
structure OpsMapEnv where
  dma_map_sg : DmaDir → List Seg

/-- Embedding of `vb2_dc_dmabuf_ops_map` (lines 331-369), the body under
the per-dmabuf mutex: return the cached table unchanged if the cached
direction equals the requested one; otherwise release any previous
mapping (resetting the cached direction to `DMA_NONE`), then map with the
new direction, failing with EIO on zero mapped entries. -/
def vb2_dc_dmabuf_ops_map (env : OpsMapEnv) (attach : DcAttachment) (dma_dir : DmaDir) :
    DcAttachment × Except ErrCode SgTable × List OpsMapEvt :=
  if attach.dma_dir = dma_dir then
    (attach, Except.ok attach.sgt, [])
  else
    let step :=
      if attach.dma_dir ≠ DmaDir.dma_none then
        ({ attach with dma_dir := DmaDir.dma_none },
         [OpsMapEvt.dma_unmap_sg attach.dma_dir])
      else (attach, [])
    let segs := env.dma_map_sg dma_dir
    if segs.isEmpty then
      (step.1, Except.error ErrCode.eio, step.2 ++ [OpsMapEvt.dma_map_sg dma_dir])
    else
      let sgt1 : SgTable :=
        { sgl := segs, nents := segs.length, orig_nents := step.1.sgt.orig_nents }
      ({ step.1 with sgt := sgt1, dma_dir := dma_dir },
       Except.ok sgt1, step.2 ++ [OpsMapEvt.dma_map_sg dma_dir])

/-- Teardown events of `vb2_dc_put` (lines 125-139). -/
inductive PutEvt where
  | sg_free_sgt_base
  | dma_free_coherent
  | put_device
  | kfree_buf
deriving DecidableEq, Repr

/-- Embedding of `vb2_dc_put`: `atomic_dec_and_test`; if the count stays
nonzero the buffer survives with the decremented count, otherwise the
buffer is torn down (free cached export table, free coherent memory, drop
the device reference, free the descriptor) and ceases to exist. -/
def vb2_dc_put (buf : Buf) : Option Buf × List PutEvt :=
  if buf.refcount - 1 ≠ 0 then
    (some { buf with refcount := buf.refcount - 1 }, [])
  else
    (none,
     (if buf.sgt_base.isSome then [PutEvt.sg_free_sgt_base] else []) ++
       [PutEvt.dma_free_coherent, PutEvt.put_device, PutEvt.kfree_buf])

/-- Oracle for the kernel services used by `vb2_dc_get_dmabuf`:
`vb2_dc_get_base_sgt` (building the export scatterlist) and
`dma_buf_export`. -/
structure ExportEnv where
  get_base_sgt : Option SgTable
  dma_buf_export_ok : Bool
deriving DecidableEq, Repr

/-- Embedding of `vb2_dc_get_dmabuf` (lines 453-478): lazily build and
cache `sgt_base`, fail (returning no handle) if it cannot be built or if
`dma_buf_export` fails, otherwise increment the refcount — the dmabuf
keeps a reference to the vb2 buffer — and hand out the export handle. -/
def vb2_dc_get_dmabuf (env : ExportEnv) (buf : Buf) : Buf × Option DmaBufHandle :=
  let buf1 :=
    if buf.sgt_base.isNone then { buf with sgt_base := env.get_base_sgt } else buf
  if buf1.sgt_base.isNone then (buf1, none)
  else if !env.dma_buf_export_ok then (buf1, none)
  else ({ buf1 with refcount := buf1.refcount + 1 }, some { size := buf1.size })

/-- Embedding of `vb2_dc_dmabuf_ops_release` (lines 381-386): the export
handle's release callback drops the reference obtained in
`vb2_dc_get_dmabuf` via `vb2_dc_put`. -/
def vb2_dc_dmabuf_ops_release (buf : Buf) : Option Buf × List PutEvt :=
  vb2_dc_put buf

/-- One export immediately followed by the release of the obtained
handle; when the export fails no handle exists and nothing is released. -/
def exportThenRelease (env : ExportEnv) (buf : Buf) : Option Buf :=
  match vb2_dc_get_dmabuf env buf with
  | (buf1, some _) => (vb2_dc_dmabuf_ops_release buf1).1
  | (buf1, none) => some buf1

/-- Iterate `n` export/release pairs. -/
def iterExportRelease (env : ExportEnv) : Nat → Buf → Option Buf
  | 0, buf => some buf
  | n + 1, buf =>
    match exportThenRelease env buf with
    | some b => iterExportRelease env n b
    | none => none

/-- Concrete oracle environment: every allocation succeeds, pages
resolve, and the device mapping yields one 4-byte segment at address 64. -/
def envPagesOk : UserptrEnv :=
  { dma_align := 1, kzalloc_buf_ok := true,
    create_framevec := Except.ok ⟨[3]⟩,
    frame_vector_to_pages := Except.ok (),
    kzalloc_sgt_ok := true,
    sg_alloc_table_from_pages := Except.ok (),
    dma_map_sg := [⟨64, 4⟩], orig_nents := 1,
    pfn_to_dma := fun p => p }

/-- Concrete oracle environment: every allocation succeeds, but page
resolution fails and the pinned frames 5 and 9 are not contiguous. -/
def envPfnGap : UserptrEnv :=
  { dma_align := 1, kzalloc_buf_ok := true,
    create_framevec := Except.ok ⟨[5, 9]⟩,
    frame_vector_to_pages := Except.error ErrCode.efault,
    kzalloc_sgt_ok := true,
    sg_alloc_table_from_pages := Except.ok (),
    dma_map_sg := [⟨64, 4⟩], orig_nents := 1,
    pfn_to_dma := fun p => p }

/-- Concrete one-segment table: 4 bytes at device address 64. -/
def sgtUnit : SgTable := { sgl := [⟨64, 4⟩], nents := 1, orig_nents := 1 }

/-- Concrete Imported buffer that is attached and already mapped. -/
def bufMapped : Buf :=
  { dev := 1, vaddr := none, size := 4, dma_addr := 64,
    dma_dir := DmaDir.to_device, dma_sgt := some sgtUnit, vec := none,
    refcount := 0, sgt_base := none, db_attach := some 7 }

/-- Concrete Imported buffer that is attached but not yet mapped. -/
def bufAttached : Buf :=
  { dev := 1, vaddr := none, size := 4, dma_addr := 0,
    dma_dir := DmaDir.to_device, dma_sgt := none, vec := none,
    refcount := 0, sgt_base := none, db_attach := some 7 }

/-- Concrete MMAP buffer held by the framework (refcount 1) that has
never been exported: no export table is cached yet. -/
def bufLazyExport : Buf :=
  { dev := 1, vaddr := some 5, size := 4, dma_addr := 64,
    dma_dir := DmaDir.to_device, dma_sgt := none, vec := none,
    refcount := 1, sgt_base := none, db_attach := none }

/-- Concrete export environment where exporting succeeds. -/
def envExport : ExportEnv :=
  { get_base_sgt := some sgtUnit, dma_buf_export_ok := true }

/-- Concrete exporter-side translation oracle: any direction maps to the
single 4-byte segment at device address 64. -/
def opsEnv : OpsMapEnv := { dma_map_sg := fun _ => [⟨64, 4⟩] }

/-- Concrete attachment cache currently mapped for the to-device
direction. -/
def attachCached : DcAttachment := { sgt := sgtUnit, dma_dir := DmaDir.to_device }

/-!  Theorems. -/

/-- Accumulator monotonicity of the contiguous-size loop. -/
theorem contigGo_le (l : List Seg) : ∀ expected size, size ≤ contigGo l expected size := by
  induction l with
  | nil => intro expected size; simp [contigGo]
  | cons s rest ih =>
    intro expected size
    by_cases h : s.dma_address = expected
    · rw [contigGo, if_neg (by simp [h])]
      exact le_trans (Nat.le_add_right size s.dma_len) (ih _ _)
    · rw [contigGo, if_pos h]

/-- C4: the contiguous-run scan over the table `[(A,10),(A+10,20),(A+40,5)]`
returns 30 (the third segment breaks the run), and over the overlapping
table `[(A,10),(A+5,20)]` it returns 10, by the address-equality rule of
the source loop.  `A` is any representable device address. -/
theorem c4_contiguous_size_examples (A : Nat) :
    vb2_dc_get_contiguous_size
      { sgl := [⟨A, 10⟩, ⟨(A + 10) % W, 20⟩, ⟨(A + 40) % W, 5⟩],
        nents := 3, orig_nents := 3 } = 30 ∧
    vb2_dc_get_contiguous_size
      { sgl := [⟨A, 10⟩, ⟨(A + 5) % W, 20⟩], nents := 2, orig_nents := 2 } = 10 := by
  constructor
  · show contigGo [⟨A, 10⟩, ⟨(A + 10) % W, 20⟩, ⟨(A + 40) % W, 5⟩] A 0 = 30
    rw [contigGo, if_neg (by simp)]
    rw [contigGo, if_neg (by simp)]
    rw [contigGo, if_pos (by simp only [W]; simp; omega)]
    norm_num
  · show contigGo [⟨A, 10⟩, ⟨(A + 5) % W, 20⟩] A 0 = 10
    rw [contigGo, if_neg (by simp)]
    rw [contigGo, if_pos (by simp only [W]; simp; omega)]
    norm_num

/-- Witness for C4 at the concrete address A = 4096. -/
theorem c4_contiguous_size_examples_witness :
    vb2_dc_get_contiguous_size
      { sgl := [⟨4096, 10⟩, ⟨(4096 + 10) % W, 20⟩, ⟨(4096 + 40) % W, 5⟩],
        nents := 3, orig_nents := 3 } = 30 ∧
    vb2_dc_get_contiguous_size
      { sgl := [⟨4096, 10⟩, ⟨(4096 + 5) % W, 20⟩], nents := 2, orig_nents := 2 } = 10 :=
  c4_contiguous_size_examples 4096

/-- C10: the scan always counts the first segment, so on a table with at
least one DMA-mapped segment the result is at least the first segment's
length, and is positive whenever that length is. -/
theorem c10_contiguous_size_first_segment (sgt : SgTable) (s : Seg) (rest : List Seg)
    (hsgl : sgt.sgl = s :: rest) (hnents : 1 ≤ sgt.nents) :
    s.dma_len ≤ vb2_dc_get_contiguous_size sgt ∧
    (0 < s.dma_len → 0 < vb2_dc_get_contiguous_size sgt) := by
  have hmain : s.dma_len ≤ vb2_dc_get_contiguous_size sgt := by
    rw [vb2_dc_get_contiguous_size, hsgl]
    obtain ⟨m, hm⟩ : ∃ m, sgt.nents = m + 1 := ⟨sgt.nents - 1, by omega⟩
    rw [hm]
    show s.dma_len ≤ contigGo (s :: rest.take m) s.dma_address 0
    rw [contigGo, if_neg (by simp)]
    simpa using contigGo_le (rest.take m) ((s.dma_address + s.dma_len) % W) s.dma_len
  exact ⟨hmain, fun h => lt_of_lt_of_le h hmain⟩

/-- Witness for C10 on a two-segment table with a discontiguous tail. -/
theorem c10_contiguous_size_first_segment_witness :
    (8 : Nat) ≤ vb2_dc_get_contiguous_size
      { sgl := [⟨100, 8⟩, ⟨500, 4⟩], nents := 2, orig_nents := 2 } ∧
    ((0 : Nat) < 8 → 0 < vb2_dc_get_contiguous_size
      { sgl := [⟨100, 8⟩, ⟨500, 4⟩], nents := 2, orig_nents := 2 }) :=
  c10_contiguous_size_first_segment
    { sgl := [⟨100, 8⟩, ⟨500, 4⟩], nents := 2, orig_nents := 2 }
    ⟨100, 8⟩ [⟨500, 4⟩] rfl (by norm_num)

/-- Bits below `k` of `x` are all clear exactly when `2 ^ k` divides `x`. -/
theorem mod_two_pow_eq_zero_iff_testBit (x k : Nat) :
    x % 2 ^ k = 0 ↔ ∀ i, i < k → x.testBit i = false := by
  constructor
  · intro h i hik
    have hb := congrArg (fun n => Nat.testBit n i) h
    simpa [Nat.testBit_mod_two_pow, hik] using hb
  · intro h
    apply Nat.eq_of_testBit_eq
    intro i
    rw [Nat.testBit_mod_two_pow, Nat.zero_testBit]
    by_cases hik : i < k
    · simp [hik, h i hik]
    · simp [hik]

/-- The IS_ALIGNED mask test applied to the OR of two words, for a
power-of-two alignment, holds exactly when both words are multiples of the
alignment. -/
theorem or_and_mask_eq_zero_iff (a b k : Nat) :
    (a ||| b) &&& (2 ^ k - 1) = 0 ↔ a % 2 ^ k = 0 ∧ b % 2 ^ k = 0 := by
  rw [Nat.and_pow_two_sub_one_eq_mod]
  simp only [mod_two_pow_eq_zero_iff_testBit, Nat.testBit_or]
  constructor
  · intro h
    refine ⟨fun i hi => ?_, fun i hi => ?_⟩ <;>
    · have hb := h i hi
      simp only [Bool.or_eq_false_iff] at hb
      tauto
  · intro h i hi
    simp [h.1 i hi, h.2 i hi]

/-- C2 counterexample: with the descriptor and coherent allocations
succeeding, a zero-size allocate call succeeds — it is not rejected with
InvalidArgument (nor with any error) before memory is obtained. -/
theorem c2_zero_size_alloc_counterexample :
    vb2_dc_alloc { kzalloc_ok := true, dma_alloc_coherent := some (77, 4096) }
      { dev := 1 } 0 DmaDir.to_device =
    Except.ok
      { dev := 1, vaddr := some 77, size := 0, dma_addr := 4096,
        dma_dir := DmaDir.to_device, dma_sgt := none, vec := none,
        refcount := 1, sgt_base := none, db_attach := none } := rfl

/-- C2 amended: `vb2_dc_alloc` performs no size validation at all.  A
zero-size request is forwarded to the allocators: it either fails with
OutOfMemory (ENOMEM, when a kernel allocation fails) or succeeds with a
zero-size mapped buffer whose refcount is 1 — it is never rejected with
InvalidArgument. -/
theorem c2_alloc_no_size_check (env : AllocEnv) (conf : Vb2DcConf) (dir : DmaDir) :
    vb2_dc_alloc env conf 0 dir = Except.error ErrCode.enomem ∨
    (∃ b, vb2_dc_alloc env conf 0 dir = Except.ok b ∧ b.size = 0 ∧ b.refcount = 1) := by
  unfold vb2_dc_alloc
  cases env.kzalloc_ok with
  | false => exact Or.inl rfl
  | true =>
    cases h : env.dma_alloc_coherent with
    | none => simp
    | some p =>
      obtain ⟨va, da⟩ := p
      exact Or.inr
        ⟨{ dev := conf.dev, vaddr := some va, size := 0, dma_addr := da,
           dma_dir := dir, dma_sgt := none, vec := none, refcount := 1,
           sgt_base := none, db_attach := none }, by simp, rfl, rfl⟩

/-- C7: a pin_from_user call whose address or size is not a multiple of
the (power-of-two) platform cache alignment, or whose size is zero, fails
with InvalidArgument (EINVAL) before acquiring any resource: the event
trace is empty — no descriptor, no pinned pages, no segment table. -/
theorem c7_get_userptr_invalid_argument (env : UserptrEnv) (conf : Vb2DcConf)
    (vaddr size : Nat) (dma_dir : DmaDir) (k : Nat)
    (hk : env.dma_align = 2 ^ k)
    (h : ¬ vaddr % env.dma_align = 0 ∨ ¬ size % env.dma_align = 0 ∨ size = 0) :
    vb2_dc_get_userptr env conf vaddr size dma_dir =
      (Except.error ErrCode.einval, []) := by
  unfold vb2_dc_get_userptr
  rw [hk] at h ⊢
  by_cases hmask : (vaddr ||| size) &&& (2 ^ k - 1) = 0
  · have hboth := (or_and_mask_eq_zero_iff vaddr size k).mp hmask
    have hsz : size = 0 := by tauto
    rw [if_neg (fun hne => hne hmask), if_pos hsz]
  · rw [if_pos hmask]

/-- Witness for C7: alignment 8, misaligned address 3. -/
theorem c7_get_userptr_invalid_argument_witness :
    vb2_dc_get_userptr
      { dma_align := 8, kzalloc_buf_ok := true,
        create_framevec := Except.ok ⟨[1]⟩,
        frame_vector_to_pages := Except.ok (),
        kzalloc_sgt_ok := true,
        sg_alloc_table_from_pages := Except.ok (),
        dma_map_sg := [⟨64, 8⟩], orig_nents := 1,
        pfn_to_dma := fun p => p }
      { dev := 1 } 3 8 DmaDir.from_device = (Except.error ErrCode.einval, []) :=
  c7_get_userptr_invalid_argument _ _ 3 8 DmaDir.from_device 3 rfl
    (Or.inl (by decide))

/-- C3 amended: for an aligned, nonzero-size pin_from_user call in which
the two descriptor/table allocations, frame pinning, scatterlist setup
and device mapping succeed, the outcome is exactly one of: (1) page
resolution fails and the frame numbers strictly increase by one — the
returned buffer has a single synthesized device address and no segment
table; (1b) page resolution fails and the frames are not one contiguous
run — the call fails with the page-resolution error, releasing the
pinned frames and the descriptor; (2) pages resolve and the mapped
table's contiguous run covers `size` — the returned buffer carries that
table; (3) pages resolve and the run is shorter than `size` — the call
fails with ContiguityViolation (EFAULT), rolling back by unmapping the
table, freeing it, and releasing the pinned pages and descriptor in
reverse acquisition order.  No partially-valid buffer is ever returned. -/
theorem c3_get_userptr_outcomes (env : UserptrEnv) (conf : Vb2DcConf)
    (vaddr size : Nat) (dma_dir : DmaDir) (vec : FrameVector)
    (halign : (vaddr ||| size) &&& (env.dma_align - 1) = 0)
    (hsz : size ≠ 0)
    (hkb : env.kzalloc_buf_ok = true)
    (hvec : env.create_framevec = Except.ok vec)
    (hks : env.kzalloc_sgt_ok = true)
    (hsa : env.sg_alloc_table_from_pages = Except.ok ())
    (hmap : env.dma_map_sg ≠ []) :
    ((∃ e, env.frame_vector_to_pages = Except.error e) ∧ pfnChain vec.pfns = true ∧
       vb2_dc_get_userptr env conf vaddr size dma_dir =
         (Except.ok { dev := conf.dev, vaddr := none, size := size,
                      dma_addr := env.pfn_to_dma (vec.pfns.headD 0),
                      dma_dir := dma_dir, dma_sgt := none, vec := some vec,
                      refcount := 0, sgt_base := none, db_attach := none },
          [Event.kzalloc_buf, Event.create_framevec])) ∨
    (∃ e, env.frame_vector_to_pages = Except.error e ∧ pfnChain vec.pfns = false ∧
       vb2_dc_get_userptr env conf vaddr size dma_dir =
         (Except.error e,
          [Event.kzalloc_buf, Event.create_framevec, Event.destroy_framevec,
           Event.kfree_buf])) ∨
    (env.frame_vector_to_pages = Except.ok () ∧
       size ≤ vb2_dc_get_contiguous_size (userptrSgt env) ∧
       vb2_dc_get_userptr env conf vaddr size dma_dir =
         (Except.ok { dev := conf.dev, vaddr := none, size := size,
                      dma_addr := ((userptrSgt env).sgl.headD ⟨0, 0⟩).dma_address,
                      dma_dir := dma_dir, dma_sgt := some (userptrSgt env),
                      vec := some vec, refcount := 0, sgt_base := none,
                      db_attach := none },
          [Event.kzalloc_buf, Event.create_framevec, Event.kzalloc_sgt,
           Event.sg_alloc_table, Event.dma_map_sg])) ∨
    (env.frame_vector_to_pages = Except.ok () ∧
       vb2_dc_get_contiguous_size (userptrSgt env) < size ∧
       vb2_dc_get_userptr env conf vaddr size dma_dir =
         (Except.error ErrCode.efault,
          [Event.kzalloc_buf, Event.create_framevec, Event.kzalloc_sgt,
           Event.sg_alloc_table, Event.dma_map_sg, Event.dma_unmap_sg,
           Event.sg_free_table, Event.kfree_sgt, Event.destroy_framevec,
           Event.kfree_buf])) := by
  have hmask : ¬ ((vaddr ||| size) &&& (env.dma_align - 1) ≠ 0) :=
    fun hne => hne halign
  have hkb' : ¬ ((!env.kzalloc_buf_ok) = true) := by rw [hkb]; decide
  have hmapne : ¬ (env.dma_map_sg.isEmpty = true) := by
    cases hdm : env.dma_map_sg with
    | nil => exact absurd hdm hmap
    | cons a l => simp
  cases hfp : env.frame_vector_to_pages with
  | error e =>
    cases hchain : pfnChain vec.pfns with
    | true =>
      refine Or.inl ⟨⟨e, rfl⟩, rfl, ?_⟩
      simp only [vb2_dc_get_userptr, if_neg hmask, if_neg hsz, if_neg hkb',
                 hvec, hfp, if_pos hchain]
    | false =>
      refine Or.inr (Or.inl ⟨e, rfl, rfl, ?_⟩)
      simp only [vb2_dc_get_userptr, if_neg hmask, if_neg hsz, if_neg hkb',
                 hvec, hfp, if_neg (by rw [hchain]; decide :
                   ¬ (pfnChain vec.pfns = true))]
  | ok u =>
    cases u
    have hks' : ¬ ((!env.kzalloc_sgt_ok) = true) := by rw [hks]; decide
    by_cases hcs : vb2_dc_get_contiguous_size (userptrSgt env) < size
    · refine Or.inr (Or.inr (Or.inr ⟨rfl, hcs, ?_⟩))
      simp only [vb2_dc_get_userptr, if_neg hmask, if_neg hsz, if_neg hkb',
                 hvec, hfp, if_neg hks', hsa, if_neg hmapne, if_pos hcs]
    · refine Or.inr (Or.inr (Or.inl ⟨rfl, by omega, ?_⟩))
      simp only [vb2_dc_get_userptr, if_neg hmask, if_neg hsz, if_neg hkb',
                 hvec, hfp, if_neg hks', hsa, if_neg hmapne, if_neg hcs]

/-- Witness for C3 (amended) in an environment where pages resolve and
the mapped segment covers the requested 4 bytes. -/
theorem c3_get_userptr_outcomes_witness :
    ((∃ e, envPagesOk.frame_vector_to_pages = Except.error e) ∧
       pfnChain (⟨[3]⟩ : FrameVector).pfns = true ∧
       vb2_dc_get_userptr envPagesOk { dev := 1 } 0 4 DmaDir.to_device =
         (Except.ok { dev := 1, vaddr := none, size := 4,
                      dma_addr := envPagesOk.pfn_to_dma ((⟨[3]⟩ : FrameVector).pfns.headD 0),
                      dma_dir := DmaDir.to_device, dma_sgt := none,
                      vec := some ⟨[3]⟩, refcount := 0, sgt_base := none,
                      db_attach := none },
          [Event.kzalloc_buf, Event.create_framevec])) ∨
    (∃ e, envPagesOk.frame_vector_to_pages = Except.error e ∧
       pfnChain (⟨[3]⟩ : FrameVector).pfns = false ∧
       vb2_dc_get_userptr envPagesOk { dev := 1 } 0 4 DmaDir.to_device =
         (Except.error e,
          [Event.kzalloc_buf, Event.create_framevec, Event.destroy_framevec,
           Event.kfree_buf])) ∨
    (envPagesOk.frame_vector_to_pages = Except.ok () ∧
       4 ≤ vb2_dc_get_contiguous_size (userptrSgt envPagesOk) ∧
       vb2_dc_get_userptr envPagesOk { dev := 1 } 0 4 DmaDir.to_device =
         (Except.ok { dev := 1, vaddr := none, size := 4,
                      dma_addr := ((userptrSgt envPagesOk).sgl.headD ⟨0, 0⟩).dma_address,
                      dma_dir := DmaDir.to_device, dma_sgt := some (userptrSgt envPagesOk),
                      vec := some ⟨[3]⟩, refcount := 0, sgt_base := none,
                      db_attach := none },
          [Event.kzalloc_buf, Event.create_framevec, Event.kzalloc_sgt,
           Event.sg_alloc_table, Event.dma_map_sg])) ∨
    (envPagesOk.frame_vector_to_pages = Except.ok () ∧
       vb2_dc_get_contiguous_size (userptrSgt envPagesOk) < 4 ∧
       vb2_dc_get_userptr envPagesOk { dev := 1 } 0 4 DmaDir.to_device =
         (Except.error ErrCode.efault,
          [Event.kzalloc_buf, Event.create_framevec, Event.kzalloc_sgt,
           Event.sg_alloc_table, Event.dma_map_sg, Event.dma_unmap_sg,
           Event.sg_free_table, Event.kfree_sgt, Event.destroy_framevec,
           Event.kfree_buf])) :=
  c3_get_userptr_outcomes envPagesOk { dev := 1 } 0 4 DmaDir.to_device ⟨[3]⟩
    (by decide) (by decide) rfl rfl rfl rfl (by decide)

/-- C3 counterexample: in an environment where every allocation succeeds
but page resolution fails over non-contiguous frames (5 then 9), the
aligned, nonzero-size call's outcome matches none of the three outcomes
the claim enumerates — the call fails with the page-resolution error
instead. -/
theorem c3_get_userptr_counterexample :
    ¬ c3ClaimedOutcome envPfnGap { dev := 1 } 0 4 DmaDir.to_device := by
  intro h
  rcases h with ⟨e, vec, _, hvec, hchain, _⟩ | ⟨hfp, _⟩ | ⟨hfp, _⟩
  · have hv : vec = ⟨[5, 9]⟩ := by
      have : Except.ok (⟨[5, 9]⟩ : FrameVector) = Except.ok vec := hvec
      exact (Except.ok.inj this).symm
    rw [hv] at hchain
    exact absurd hchain (by decide)
  · exact Except.noConfusion (show Except.error ErrCode.efault = Except.ok () from hfp)
  · exact Except.noConfusion (show Except.error ErrCode.efault = Except.ok () from hfp)

/-- C1 counterexample: calling map on an Imported buffer that is already
mapped (segment table present) returns success (0) with a warning
diagnostic — it is not rejected with an error.  The buffer is left
unchanged. -/
theorem c1_double_map_counterexample :
    vb2_dc_map_dmabuf { dma_buf_map_attachment := Except.ok sgtUnit } bufMapped =
      (bufMapped, Except.ok (), [DmabufEvt.warn_already_pinned]) := rfl

/-- C1 amended: mapping an already-mapped Imported buffer is refused as a
no-op: the code emits a diagnostic (WARN_ON plus error message), leaves
the device address and segment table unchanged, and returns success (0)
rather than an InvalidState error. -/
theorem c1_double_map_noop (env : MapDmabufEnv) (buf : Buf) (a : Nat) (t : SgTable)
    (hatt : buf.db_attach = some a) (hsgt : buf.dma_sgt = some t) :
    vb2_dc_map_dmabuf env buf =
      (buf, Except.ok (), [DmabufEvt.warn_already_pinned]) := by
  have h1 : ¬ (buf.db_attach.isNone = true) := by simp [hatt]
  have h2 : buf.dma_sgt.isSome = true := by simp [hsgt]
  unfold vb2_dc_map_dmabuf
  rw [if_neg h1, if_pos h2]

/-- Witness for C1 (amended) on the concrete mapped buffer. -/
theorem c1_double_map_noop_witness :
    vb2_dc_map_dmabuf { dma_buf_map_attachment := Except.error () } bufMapped =
      (bufMapped, Except.ok (), [DmabufEvt.warn_already_pinned]) :=
  c1_double_map_noop { dma_buf_map_attachment := Except.error () } bufMapped 7 sgtUnit
    rfl rfl

/-- C9: when mapping an attached-but-unmapped Imported buffer fails for
any reason (the foreign scatterlist request fails, or the contiguous run
is shorter than the buffer's size), the descriptor is left exactly as it
was — in particular its segment table stays absent and its device address
is unchanged — so the map can be retried. -/
theorem c9_map_dmabuf_failure_preserves (env : MapDmabufEnv) (buf : Buf)
    (a : Nat) (e : ErrCode)
    (hatt : buf.db_attach = some a) (hsgt : buf.dma_sgt = none)
    (herr : (vb2_dc_map_dmabuf env buf).2.1 = Except.error e) :
    (vb2_dc_map_dmabuf env buf).1 = buf ∧
    (vb2_dc_map_dmabuf env buf).1.dma_sgt = none ∧
    (vb2_dc_map_dmabuf env buf).1.dma_addr = buf.dma_addr := by
  have h1 : ¬ (buf.db_attach.isNone = true) := by simp [hatt]
  have h2 : ¬ (buf.dma_sgt.isSome = true) := by simp [hsgt]
  have hpre : (vb2_dc_map_dmabuf env buf).1 = buf := by
    unfold vb2_dc_map_dmabuf at herr ⊢
    rw [if_neg h1, if_neg h2] at herr ⊢
    cases hm : env.dma_buf_map_attachment with
    | error u => rfl
    | ok sgt =>
      rw [hm] at herr
      by_cases hcs : vb2_dc_get_contiguous_size sgt < buf.size
      · simp [hcs]
      · simp [hcs] at herr
  exact ⟨hpre, by rw [hpre, hsgt], by rw [hpre]⟩

/-- Witness for C9: the foreign scatterlist request fails with EINVAL on
the attached, unmapped buffer, which is returned unchanged. -/
theorem c9_map_dmabuf_failure_preserves_witness :
    (vb2_dc_map_dmabuf { dma_buf_map_attachment := Except.error () } bufAttached).1 =
      bufAttached ∧
    (vb2_dc_map_dmabuf { dma_buf_map_attachment := Except.error () } bufAttached).1.dma_sgt =
      none ∧
    (vb2_dc_map_dmabuf { dma_buf_map_attachment := Except.error () } bufAttached).1.dma_addr =
      bufAttached.dma_addr :=
  c9_map_dmabuf_failure_preserves { dma_buf_map_attachment := Except.error () }
    bufAttached 7 ErrCode.einval rfl rfl rfl

/-- C8: attach validates the shared buffer's size against the requested
size, failing (with the EFAULT code, the condition the spec files under
InvalidArgument) when the handle is undersized; on success the returned
buffer records the attachment and starts unmapped — device address zero
and no segment table. -/
theorem c8_attach_dmabuf_spec (env : AttachEnv) (conf : Vb2DcConf)
    (dbuf : DmaBufHandle) (size : Nat) (dma_dir : DmaDir) (d : Nat)
    (hk : env.kzalloc_ok = true) (ha : env.dma_buf_attach = Except.ok d) :
    (dbuf.size < size →
       vb2_dc_attach_dmabuf env conf dbuf size dma_dir =
         Except.error ErrCode.efault) ∧
    (size ≤ dbuf.size →
       vb2_dc_attach_dmabuf env conf dbuf size dma_dir =
         Except.ok { dev := conf.dev, vaddr := none, size := size, dma_addr := 0,
                     dma_dir := dma_dir, dma_sgt := none, vec := none,
                     refcount := 0, sgt_base := none, db_attach := some d }) := by
  have hk' : ¬ ((!env.kzalloc_ok) = true) := by rw [hk]; decide
  constructor
  · intro hlt
    unfold vb2_dc_attach_dmabuf
    rw [if_pos hlt]
  · intro hle
    unfold vb2_dc_attach_dmabuf
    rw [if_neg (by omega), if_neg hk', ha]

/-- Witness for C8 with a 4-byte dmabuf and a request of exactly 4 bytes. -/
theorem c8_attach_dmabuf_spec_witness :
    ((4 : Nat) < 4 →
       vb2_dc_attach_dmabuf { kzalloc_ok := true, dma_buf_attach := Except.ok 7 }
         { dev := 1 } { size := 4 } 4 DmaDir.from_device =
         Except.error ErrCode.efault) ∧
    ((4 : Nat) ≤ 4 →
       vb2_dc_attach_dmabuf { kzalloc_ok := true, dma_buf_attach := Except.ok 7 }
         { dev := 1 } { size := 4 } 4 DmaDir.from_device =
         Except.ok { dev := 1, vaddr := none, size := 4, dma_addr := 0,
                     dma_dir := DmaDir.from_device, dma_sgt := none, vec := none,
                     refcount := 0, sgt_base := none, db_attach := some 7 }) :=
  c8_attach_dmabuf_spec { kzalloc_ok := true, dma_buf_attach := Except.ok 7 }
    { dev := 1 } { size := 4 } 4 DmaDir.from_device 7 rfl rfl

/-- C5: on the exporter side, mapping an already-device-mapped attachment
cache with its cached direction returns the cached segment table without
any translation request (idempotence); mapping with a different direction
first releases the previous device mapping — one unmap request for the
old direction, resetting the cached direction — and then performs a
fresh translation for the new direction: the cache records the new
direction on success and stays at DMA_NONE when the translation fails
with IOError. -/
theorem c5_ops_map_directions (env : OpsMapEnv) (attach : DcAttachment)
    (dma_dir : DmaDir) (hprev : attach.dma_dir ≠ DmaDir.dma_none) :
    (attach.dma_dir = dma_dir →
       vb2_dc_dmabuf_ops_map env attach dma_dir =
         (attach, Except.ok attach.sgt, [])) ∧
    (attach.dma_dir ≠ dma_dir →
       (vb2_dc_dmabuf_ops_map env attach dma_dir).2.2 =
         [OpsMapEvt.dma_unmap_sg attach.dma_dir, OpsMapEvt.dma_map_sg dma_dir] ∧
       (env.dma_map_sg dma_dir = [] →
          (vb2_dc_dmabuf_ops_map env attach dma_dir).1.dma_dir = DmaDir.dma_none ∧
          (vb2_dc_dmabuf_ops_map env attach dma_dir).2.1 =
            Except.error ErrCode.eio) ∧
       (env.dma_map_sg dma_dir ≠ [] →
          (vb2_dc_dmabuf_ops_map env attach dma_dir).1.dma_dir = dma_dir ∧
          (vb2_dc_dmabuf_ops_map env attach dma_dir).1.sgt.sgl =
            env.dma_map_sg dma_dir ∧
          (vb2_dc_dmabuf_ops_map env attach dma_dir).2.1 =
            Except.ok (vb2_dc_dmabuf_ops_map env attach dma_dir).1.sgt)) := by
  constructor
  · intro heq
    unfold vb2_dc_dmabuf_ops_map
    rw [if_pos heq]
  · intro hne
    by_cases hdm : env.dma_map_sg dma_dir = []
    · have hie : (env.dma_map_sg dma_dir).isEmpty = true := by rw [hdm]; rfl
      have hres : vb2_dc_dmabuf_ops_map env attach dma_dir =
          ({ attach with dma_dir := DmaDir.dma_none }, Except.error ErrCode.eio,
           [OpsMapEvt.dma_unmap_sg attach.dma_dir, OpsMapEvt.dma_map_sg dma_dir]) := by
        unfold vb2_dc_dmabuf_ops_map
        rw [if_neg hne]
        simp [if_pos hprev, hie]
      exact ⟨by rw [hres], fun _ => by rw [hres]; exact ⟨rfl, rfl⟩,
             fun hc => absurd hdm hc⟩
    · have hie : (env.dma_map_sg dma_dir).isEmpty = false := by
        cases h : env.dma_map_sg dma_dir with
        | nil => exact absurd h hdm
        | cons a l => rfl
      have hres : vb2_dc_dmabuf_ops_map env attach dma_dir =
          ({ sgt := { sgl := env.dma_map_sg dma_dir,
                      nents := (env.dma_map_sg dma_dir).length,
                      orig_nents := attach.sgt.orig_nents },
             dma_dir := dma_dir },
           Except.ok { sgl := env.dma_map_sg dma_dir,
                       nents := (env.dma_map_sg dma_dir).length,
                       orig_nents := attach.sgt.orig_nents },
           [OpsMapEvt.dma_unmap_sg attach.dma_dir, OpsMapEvt.dma_map_sg dma_dir]) := by
        unfold vb2_dc_dmabuf_ops_map
        rw [if_neg hne]
        simp [if_pos hprev, hie]
      exact ⟨by rw [hres], fun hc => absurd hc hdm,
             fun _ => by rw [hres]; exact ⟨rfl, rfl, rfl⟩⟩

/-- Witness for C5 at the cached to-device attachment, remapped with the
unchanged to-device direction. -/
theorem c5_ops_map_directions_witness :
    (attachCached.dma_dir = DmaDir.to_device →
       vb2_dc_dmabuf_ops_map opsEnv attachCached DmaDir.to_device =
         (attachCached, Except.ok attachCached.sgt, [])) ∧
    (attachCached.dma_dir ≠ DmaDir.to_device →
       (vb2_dc_dmabuf_ops_map opsEnv attachCached DmaDir.to_device).2.2 =
         [OpsMapEvt.dma_unmap_sg attachCached.dma_dir,
          OpsMapEvt.dma_map_sg DmaDir.to_device] ∧
       (opsEnv.dma_map_sg DmaDir.to_device = [] →
          (vb2_dc_dmabuf_ops_map opsEnv attachCached DmaDir.to_device).1.dma_dir =
            DmaDir.dma_none ∧
          (vb2_dc_dmabuf_ops_map opsEnv attachCached DmaDir.to_device).2.1 =
            Except.error ErrCode.eio) ∧
       (opsEnv.dma_map_sg DmaDir.to_device ≠ [] →
          (vb2_dc_dmabuf_ops_map opsEnv attachCached DmaDir.to_device).1.dma_dir =
            DmaDir.to_device ∧
          (vb2_dc_dmabuf_ops_map opsEnv attachCached DmaDir.to_device).1.sgt.sgl =
            opsEnv.dma_map_sg DmaDir.to_device ∧
          (vb2_dc_dmabuf_ops_map opsEnv attachCached DmaDir.to_device).2.1 =
            Except.ok (vb2_dc_dmabuf_ops_map opsEnv attachCached DmaDir.to_device).1.sgt)) :=
  c5_ops_map_directions opsEnv attachCached DmaDir.to_device (by decide)

/-- Successful path of `vb2_dc_get_dmabuf`: with a cached export table
and a succeeding `dma_buf_export`, the refcount is incremented and a
handle of the buffer's size is returned. -/
theorem vb2_dc_get_dmabuf_ok (env : ExportEnv) (buf : Buf) (t : SgTable)
    (hbase : buf.sgt_base = some t) (hok : env.dma_buf_export_ok = true) :
    vb2_dc_get_dmabuf env buf =
      ({ buf with refcount := buf.refcount + 1 }, some { size := buf.size }) := by
  simp [vb2_dc_get_dmabuf, hbase, hok]

/-- Surviving path of `vb2_dc_put`: when the decremented count is
nonzero, the buffer survives with the count lowered by exactly one and no
teardown happens. -/
theorem vb2_dc_put_survivor (buf : Buf) (h : buf.refcount - 1 ≠ 0) :
    vb2_dc_put buf = (some { buf with refcount := buf.refcount - 1 }, []) := by
  unfold vb2_dc_put
  rw [if_pos h]

/-- Successful path of `vb2_dc_get_dmabuf` on a first-time export: the
export scatterlist is lazily built and cached (lines 464-465), then the
refcount is incremented and a handle of the buffer's size returned. -/
theorem vb2_dc_get_dmabuf_lazy (env : ExportEnv) (buf : Buf) (t : SgTable)
    (hnone : buf.sgt_base = none) (hbase : env.get_base_sgt = some t)
    (hok : env.dma_buf_export_ok = true) :
    vb2_dc_get_dmabuf env buf =
      ({ buf with sgt_base := some t, refcount := buf.refcount + 1 },
       some { size := buf.size }) := by
  simp [vb2_dc_get_dmabuf, hnone, hbase, hok]

/-- Every successful export: whenever the export table is already cached
or can be built, and `dma_buf_export` succeeds, the export hands out a
handle and the buffer's refcount is incremented by exactly one, with a
table now cached. -/
theorem vb2_dc_get_dmabuf_succeeds (env : ExportEnv) (buf : Buf)
    (hbase : buf.sgt_base.isSome = true ∨ env.get_base_sgt.isSome = true)
    (hok : env.dma_buf_export_ok = true) :
    ∃ b1, vb2_dc_get_dmabuf env buf = (b1, some { size := buf.size }) ∧
      b1.refcount = buf.refcount + 1 ∧ b1.sgt_base.isSome = true := by
  cases hsb : buf.sgt_base with
  | some t0 =>
    exact ⟨{ buf with refcount := buf.refcount + 1 },
           vb2_dc_get_dmabuf_ok env buf t0 hsb hok, rfl, by simp [hsb]⟩
  | none =>
    have hg : env.get_base_sgt.isSome = true := by
      rcases hbase with h | h
      · rw [hsb] at h
        exact absurd h (by simp)
      · exact h
    obtain ⟨t, ht⟩ := Option.isSome_iff_exists.mp hg
    exact ⟨{ buf with sgt_base := some t, refcount := buf.refcount + 1 },
           vb2_dc_get_dmabuf_lazy env buf t hsb ht hok, rfl, by simp⟩

/-- One export/release round on any live buffer whose export table is
cached or obtainable: the round succeeds and returns the reference count
to exactly its previous value, with the export table now cached. -/
theorem exportThenRelease_refcount (env : ExportEnv) (buf : Buf)
    (hbase : buf.sgt_base.isSome = true ∨ env.get_base_sgt.isSome = true)
    (hok : env.dma_buf_export_ok = true) (hr : 1 ≤ buf.refcount) :
    ∃ b, exportThenRelease env buf = some b ∧
      b.refcount = buf.refcount ∧ b.sgt_base.isSome = true := by
  obtain ⟨b1, hb1, hrc, hbs⟩ := vb2_dc_get_dmabuf_succeeds env buf hbase hok
  refine ⟨{ b1 with refcount := b1.refcount - 1 }, ?_, ?_, hbs⟩
  · unfold exportThenRelease
    rw [hb1]
    show (vb2_dc_dmabuf_ops_release b1).1 =
      some { b1 with refcount := b1.refcount - 1 }
    unfold vb2_dc_dmabuf_ops_release
    rw [vb2_dc_put_survivor b1 (by rw [hrc]; omega)]
  · show b1.refcount - 1 = buf.refcount
    rw [hrc]
    omega

/-- Iterated export/release rounds keep the buffer alive and preserve the
reference count. -/
theorem iterExportRelease_refcount (env : ExportEnv)
    (hok : env.dma_buf_export_ok = true) :
    ∀ (n : Nat) (buf : Buf),
      buf.sgt_base.isSome = true ∨ env.get_base_sgt.isSome = true →
      1 ≤ buf.refcount →
      ∃ b, iterExportRelease env n buf = some b ∧ b.refcount = buf.refcount := by
  intro n
  induction n with
  | zero => intro buf _ _; exact ⟨buf, rfl, rfl⟩
  | succ k ih =>
    intro buf hbase hr
    obtain ⟨b, hb, hrc, hbs⟩ := exportThenRelease_refcount env buf hbase hok hr
    obtain ⟨b2, hb2, hrc2⟩ := ih b (Or.inl hbs) (by rw [hrc]; exact hr)
    refine ⟨b2, ?_, by rw [hrc2, hrc]⟩
    rw [iterExportRelease, hb]
    exact hb2

/-- C6: for every live buffer with reference count `r` (at least one
holder) whose export table is cached or obtainable, a successful export
hands out a handle and increments the reference count to exactly `r + 1`
-- including a first-time export that lazily builds the table; releasing
the exported handle decrements the count by exactly 1, back to `r`; and
after `n` exports, each followed by its corresponding release, the buffer
is alive with its reference count equal to the pre-export value `r`. -/
theorem c6_export_release_refcount (env : ExportEnv) (buf : Buf) (n : Nat)
    (hbase : buf.sgt_base.isSome = true ∨ env.get_base_sgt.isSome = true)
    (hok : env.dma_buf_export_ok = true)
    (hr : 1 ≤ buf.refcount) :
    (vb2_dc_get_dmabuf env buf).1.refcount = buf.refcount + 1 ∧
    (vb2_dc_get_dmabuf env buf).2.isSome = true ∧
    (∃ b, (vb2_dc_dmabuf_ops_release (vb2_dc_get_dmabuf env buf).1).1 = some b ∧
       b.refcount = buf.refcount) ∧
    (∃ b, iterExportRelease env n buf = some b ∧ b.refcount = buf.refcount) := by
  obtain ⟨b1, hb1, hrc, hbs⟩ := vb2_dc_get_dmabuf_succeeds env buf hbase hok
  refine ⟨by rw [hb1]; exact hrc, by rw [hb1]; rfl, ?_,
          iterExportRelease_refcount env hok n buf hbase hr⟩
  rw [hb1]
  refine ⟨{ b1 with refcount := b1.refcount - 1 }, ?_, ?_⟩
  · show (vb2_dc_dmabuf_ops_release b1).1 =
      some { b1 with refcount := b1.refcount - 1 }
    unfold vb2_dc_dmabuf_ops_release
    rw [vb2_dc_put_survivor b1 (by rw [hrc]; omega)]
  · show b1.refcount - 1 = buf.refcount
    rw [hrc]
    omega

/-- Witness for C6 on the concrete never-exported buffer (no cached
table, refcount 1) with three export/release rounds. -/
theorem c6_export_release_refcount_witness :
    (vb2_dc_get_dmabuf envExport bufLazyExport).1.refcount =
      bufLazyExport.refcount + 1 ∧
    (vb2_dc_get_dmabuf envExport bufLazyExport).2.isSome = true ∧
    (∃ b, (vb2_dc_dmabuf_ops_release
        (vb2_dc_get_dmabuf envExport bufLazyExport).1).1 = some b ∧
       b.refcount = bufLazyExport.refcount) ∧
    (∃ b, iterExportRelease envExport 3 bufLazyExport = some b ∧
       b.refcount = bufLazyExport.refcount) :=
  c6_export_release_refcount envExport bufLazyExport 3 (Or.inr rfl) rfl (by decide)
